import Mathlib

/-!
Verification of the Auth0 organization-membership CLI
(`src/auth0-client.ts`, class `Auth0Client`, and the CLI workflow class
`Auth0OrganizationCLI`).

The remote Auth0 Management API is modelled as an oracle: each client
operation takes the oracle responses it needs and returns both its result
(`Except String α`, the `String` being the thrown error's message) and the
list of remote calls it issued, in order.  JavaScript truthiness, `trim`,
`toLowerCase` and the email regular expression are embedded explicitly.
-/

namespace Auth0CLI

/-- JS `\s` (whitespace class), restricted to the characters that can occur
here; matches `Char.isWhitespace`. -/
def isWs (c : Char) : Bool := c.isWhitespace

/-- `String.prototype.trim` on the character list: drop whitespace from both
ends. -/
def jsTrimL (cs : List Char) : List Char :=
  ((cs.dropWhile isWs).reverse.dropWhile isWs).reverse

/-- `email.trim()`. -/
def jsTrim (s : String) : String := ⟨jsTrimL s.toList⟩

/-- `String.prototype.toLowerCase`, per character (ASCII, which is all the
claims exercise). -/
def jsToLower (s : String) : String := ⟨s.toList.map Char.toLower⟩

/-- A character matching `[^\s@]` in the email regular expression. -/
def isAtomChar (c : Char) : Bool := !isWs c && c != '@'

/-- The part of the string strictly after its first `'@'` (empty when there
is no `'@'`). -/
def afterFirstAt (cs : List Char) : List Char :=
  (cs.dropWhile (· != '@')).drop 1

/-- `isValidEmail` (all three copies in the source use the same regular
expression `^[^\s@]+@[^\s@]+\.[^\s@]+$`): a nonempty run of `[^\s@]`
characters, one `'@'`, and a domain that is `[^\s@]+\.[^\s@]+`.  Because
`[^\s@]` excludes `'@'`, a match contains exactly one `'@'`; the domain part
matches `[^\s@]+\.[^\s@]+` iff all of it is `[^\s@]` and some `'.'` occurs
at an interior position. -/
def isValidEmailL (cs : List Char) : Bool :=
  let l := cs.takeWhile (· != '@')
  match cs.dropWhile (· != '@') with
  | a :: rest =>
      a == '@' && !l.isEmpty && l.all isAtomChar && rest.all isAtomChar &&
        ((rest.dropLast.drop 1).contains '.')
  | [] => false

/-- `isValidEmail` on strings. -/
def isValidEmail (s : String) : Bool := isValidEmailL s.toList

/-- A raw error value reaching `handleError` (the function takes `any`):
`statusCode` and `message` fields when present, and `asString` is what
`String(error)` renders. -/
structure RawError where
  statusCode : Option Int
  message : Option String
  asString : String
deriving DecidableEq, Repr

/-- JS truthiness of the numeric `error.statusCode` field: present and
nonzero. -/
def truthyInt : Option Int → Bool
  | some c => c != 0
  | none => false

/-- JS truthiness of the string `error.message` field: present and
nonempty. -/
def truthyStr : Option String → Bool
  | some m => m != ""
  | none => false

/-- `error.message || 'Auth0 API Error'`. -/
def messageOrDefault (m : Option String) : String :=
  match m with
  | some s => if s != "" then s else "Auth0 API Error"
  | none => "Auth0 API Error"

/-- `handleError`: normalizes every remote failure into a single error
message. -/
def handleError (e : RawError) : String :=
  if truthyInt e.statusCode then
    "Auth0 API Error (" ++ toString (e.statusCode.getD 0) ++ "): " ++
      messageOrDefault e.message
  else if truthyStr e.message then
    "Auth0 API: " ++ e.message.getD ""
  else
    "Auth0 API: " ++ e.asString

/-- An Auth0 user record (the fields the CLI reads). -/
structure Auth0User where
  user_id : String
  email : String
  name : Option String
deriving DecidableEq, Repr

/-- An Auth0 organization record. -/
structure Organization where
  id : String
  name : String
  display_name : Option String
deriving DecidableEq, Repr

/-- An Auth0 role record. -/
structure Role where
  id : String
  name : String
  description : Option String
deriving DecidableEq, Repr

/-- One member entry passed to `addMembersToOrganization`; `roles` is
`Option` because the code guards `member.roles && member.roles.length > 0`
(the field may be absent). -/
structure MemberInput where
  user_id : String
  roles : Option (List String)
deriving DecidableEq, Repr

/-- One remote Management API call, with the arguments the code passes. -/
inductive RemoteCall where
  | usersByEmail (email : String)
  | getOrganizationsCall
  | getRolesCall
  | addMembers (orgId : String) (memberIds : List String)
  | addMemberRoles (orgId : String) (userId : String) (roles : List String)
deriving DecidableEq, Repr

/-- The message of the error thrown by `getUsersByEmail` on a bad email. -/
def invalidEmailMsg : String := "Invalid email address provided"

/-- The message of the error thrown by `getUserByEmail` when the lookup is
ambiguous (or the user list is missing). -/
def ambiguousMsg : String :=
  "Aborting… Multiple users found with the same email address"

/-- Oracle for the `usersByEmail.getByEmail` endpoint: maps the email
argument to either a raw error or the returned `users.data`, which may be
`null`/`undefined` (`none`). -/
def UserLookup : Type := String → Except RawError (Option (List Auth0User))

/-- `getUsersByEmail`: trims, validates, lowercases, then calls the remote
lookup; remote failures are normalized through `handleError`. -/
def getUsersByEmail (lookup : UserLookup) (email : String) :
    Except String (Option (List Auth0User)) × List RemoteCall :=
  let sanitized := jsTrim email
  if sanitized = "" || !isValidEmail sanitized then
    (.error invalidEmailMsg, [])
  else
    match lookup (jsToLower sanitized) with
    | .ok d => (.ok d, [.usersByEmail (jsToLower sanitized)])
    | .error e => (.error (handleError e), [.usersByEmail (jsToLower sanitized)])

/-- `getUserByEmail`: throws when the list is missing or has more than one
element, returns `users[0]` for one element and `null` for zero. -/
def getUserByEmail (lookup : UserLookup) (email : String) :
    Except String (Option Auth0User) × List RemoteCall :=
  match getUsersByEmail lookup email with
  | (.error e, t) => (.error e, t)
  | (.ok users?, t) =>
    match users? with
    | none => (.error ambiguousMsg, t)
    | some users =>
      if users.length > 1 then (.error ambiguousMsg, t)
      else (.ok users.head?, t)

/-- JS truthiness of `member.roles && member.roles.length > 0`. -/
def truthyRoles : Option (List String) → Bool
  | some l => decide (l.length > 0)
  | none => false

/-- The role-id list actually passed when the guard is truthy
(`member.roles`, which the guard guarantees is present). -/
def rolesOf (m : MemberInput) : List String := m.roles.getD []

/-- Oracle for the two mutation endpoints used by
`addMembersToOrganization`: `organizations.addMembers` and
`organizations.addMemberRoles`.  `none` is success; `some e` means the SDK
call rejects with the raw error `e`. -/
structure AssignOracle where
  addMembers : String → List String → Option RawError
  addMemberRoles : String → String → List String → Option RawError

/-- The `for (const member of members)` loop of `addMembersToOrganization`:
for each member with a truthy role list, one `addMemberRoles` call; the loop
aborts at the first rejected call. -/
def attachRolesLoop (oracle : AssignOracle) (organizationId : String) :
    List MemberInput → Except RawError Unit × List RemoteCall
  | [] => (.ok (), [])
  | m :: rest =>
    if truthyRoles m.roles then
      let call := RemoteCall.addMemberRoles organizationId m.user_id (rolesOf m)
      match oracle.addMemberRoles organizationId m.user_id (rolesOf m) with
      | some e => (.error e, [call])
      | none =>
        let r := attachRolesLoop oracle organizationId rest
        (r.1, call :: r.2)
    else attachRolesLoop oracle organizationId rest

/-- `addMembersToOrganization`: one batched `addMembers` call with every
member's `user_id`, then the role-attachment loop; any raw error from either
is normalized by `handleError` and thrown. -/
def addMembersToOrganization (oracle : AssignOracle) (organizationId : String)
    (members : List MemberInput) : Except String Unit × List RemoteCall :=
  let memberIds := members.map (fun m => m.user_id)
  let batchCall := RemoteCall.addMembers organizationId memberIds
  match oracle.addMembers organizationId memberIds with
  | some e => (.error (handleError e), [batchCall])
  | none =>
    match attachRolesLoop oracle organizationId members with
    | (.ok _, t) => (.ok (), batchCall :: t)
    | (.error e, t) => (.error (handleError e), batchCall :: t)

/-- The `executeAssignments` loop body over the selected organizations:
success and failure counters plus the accumulated remote-call trace.  Each
organization's `addMembersToOrganization` failure is caught and counted, and
iteration continues. -/
def execLoop (oracle : AssignOracle) (userId : String) (roleIds : List String) :
    List Organization → (Nat × Nat) × List RemoteCall
  | [] => ((0, 0), [])
  | o :: os =>
    let r := addMembersToOrganization oracle o.id [⟨userId, some roleIds⟩]
    let rest := execLoop oracle userId roleIds os
    match r.1 with
    | .ok _ => ((rest.1.1 + 1, rest.1.2), r.2 ++ rest.2)
    | .error _ => ((rest.1.1, rest.1.2 + 1), r.2 ++ rest.2)

/-- `executeAssignments`: maps the selected roles to their ids and runs the
per-organization loop; returns `(successCount, errorCount)` and the trace. -/
def executeAssignments (oracle : AssignOracle) (user : Auth0User)
    (organizations : List Organization) (roles : List Role) :
    (Nat × Nat) × List RemoteCall :=
  execLoop oracle user.user_id (roles.map (fun r => r.id)) organizations

/-- One CLI session: the oracle responses for the read endpoints, the
operator's prompt answers, and the mutation oracle.  Prompt rendering is the
external collaborator; `promptOrgs`/`promptRoles` are what the operator
checks, and `confirm` is the answer at the confirmation prompt. -/
structure Session where
  lookup : UserLookup
  orgsResp : Except RawError (List Organization)
  rolesResp : Except RawError (List Role)
  promptOrgs : List Organization
  promptRoles : List Role
  confirm : Bool
  assign : AssignOracle

/-- `getOrganizations`: one remote call; failures normalized. -/
def getOrganizations (resp : Except RawError (List Organization)) :
    Except String (List Organization) × List RemoteCall :=
  match resp with
  | .ok os => (.ok os, [.getOrganizationsCall])
  | .error e => (.error (handleError e), [.getOrganizationsCall])

/-- `getRoles`: one remote call; failures normalized. -/
def getRoles (resp : Except RawError (List Role)) :
    Except String (List Role) × List RemoteCall :=
  match resp with
  | .ok rs => (.ok rs, [.getRolesCall])
  | .error e => (.error (handleError e), [.getRolesCall])

/-- The CLI's `findUser`: calls `getUserByEmail` and catches any error,
returning `null` in that case. -/
def findUser (lookup : UserLookup) (email : String) :
    Option Auth0User × List RemoteCall :=
  match getUserByEmail lookup email with
  | (.ok u, t) => (u, t)
  | (.error _, t) => (none, t)

/-- The CLI's `selectOrganizations`: returns `[]` without prompting when no
organizations were loaded, else the operator's checkbox answer. -/
def selectOrganizations (loaded : List Organization)
    (answer : List Organization) : List Organization :=
  if loaded.isEmpty then [] else answer

/-- The CLI's `selectRoles`: returns `[]` without prompting when no roles
were loaded, else the operator's checkbox answer. -/
def selectRoles (loaded : List Role) (answer : List Role) : List Role :=
  if loaded.isEmpty then [] else answer

/-- The CLI's `run(email)` workflow, returning the process exit code and
the full remote-call trace.  Exit code 1 on invalid email, initialization
failure, or unresolved user; 0 on the zero-selection no-op, on declined
confirmation, and after `executeAssignments` completes. -/
def run (s : Session) (email : String) : Nat × List RemoteCall :=
  if !isValidEmail email then (1, [])
  else
    match getOrganizations s.orgsResp with
    | (.error _, t1) => (1, t1)
    | (.ok orgs, t1) =>
      match getRoles s.rolesResp with
      | (.error _, t2) => (1, t1 ++ t2)
      | (.ok roles, t2) =>
        match findUser s.lookup email with
        | (none, t3) => (1, t1 ++ t2 ++ t3)
        | (some user, t3) =>
          let selOrgs := selectOrganizations orgs s.promptOrgs
          if selOrgs.isEmpty then (0, t1 ++ t2 ++ t3)
          else
            let selRoles := selectRoles roles s.promptRoles
            if s.confirm then
              let r := executeAssignments s.assign user selOrgs selRoles
              (0, t1 ++ t2 ++ t3 ++ r.2)
            else (0, t1 ++ t2 ++ t3)

/-- A trace is mutation-free when it contains no `addMembers` and no
`addMemberRoles` call. -/
def mutationFree (t : List RemoteCall) : Bool :=
  t.all fun c =>
    match c with
    | .addMembers _ _ => false
    | .addMemberRoles _ _ _ => false
    | _ => true

/-- Whether an operation's result is a success. -/
def isOkResult {ε α : Type} : Except ε α → Bool
  | .ok _ => true
  | .error _ => false

/-- Sample user for concrete scenarios. -/
def sampleUser : Auth0User := ⟨"auth0|1", "a@b.c", none⟩

/-- A second sample user with the same email. -/
def sampleUser2 : Auth0User := ⟨"auth0|2", "a@b.c", none⟩

/-- Sample organization A. -/
def orgA : Organization := ⟨"A", "orgA", none⟩

/-- Sample organization B. -/
def orgB : Organization := ⟨"B", "orgB", none⟩

/-- Sample organization C. -/
def orgC : Organization := ⟨"C", "orgC", none⟩

/-- Sample role. -/
def roleR : Role := ⟨"r1", "role1", none⟩

/-- A mutation oracle on which every call succeeds. -/
def okOracle : AssignOracle := ⟨fun _ _ => none, fun _ _ _ => none⟩

/-- A mutation oracle on which the membership batch for organization `"B"`
is rejected with a 403 and everything else succeeds. -/
def bFailsOracle : AssignOracle :=
  ⟨fun o _ => if o = "B" then some ⟨some 403, some "denied", "e"⟩ else none,
   fun _ _ _ => none⟩

/-- A mutation oracle whose role-attachment endpoint rejects every call
with a 401 while the membership batch succeeds. -/
def rolesFailOracle : AssignOracle :=
  ⟨fun _ _ => none, fun _ _ _ => some ⟨some 401, some "insufficient scope", "e"⟩⟩

/-- A lookup oracle returning exactly one user for every email. -/
def lookupOne : UserLookup := fun _ => .ok (some [sampleUser])

/-- A lookup oracle returning two users for every email. -/
def lookupTwo : UserLookup := fun _ => .ok (some [sampleUser, sampleUser2])

/-- A lookup oracle returning an empty user list for every email. -/
def lookupZero : UserLookup := fun _ => .ok (some [])

/-- A lookup oracle returning a `null` user list for every email. -/
def lookupNull : UserLookup := fun _ => .ok none

/-- A fully healthy session: one matching user, two organizations, one role,
the operator selects organization A only, and confirms. -/
def healthySession : Session :=
  ⟨lookupOne, .ok [orgA, orgB], .ok [roleR], [orgA], [roleR], true, okOracle⟩

/-- A session in which the operator selects zero organizations. -/
def zeroSelectSession : Session :=
  ⟨lookupOne, .ok [orgA, orgB], .ok [roleR], [], [roleR], true, okOracle⟩

/-- A session in which the operator declines at the confirmation prompt. -/
def declineSession : Session :=
  ⟨lookupOne, .ok [orgA, orgB], .ok [roleR], [orgA], [roleR], false, okOracle⟩

/-! ### Helper lemmas about the email check and trimming -/

lemma isAtomChar_not_ws {c : Char} (h : isAtomChar c = true) : isWs c = false := by
  unfold isAtomChar at h
  simp only [Bool.and_eq_true, Bool.not_eq_eq_eq_not, Bool.not_true] at h
  exact h.1

lemma ws_ne_at {c : Char} (h : isWs c = true) : (c != '@') = true := by
  rcases eq_or_ne c '@' with rfl | hne
  · exact absurd h (by decide)
  · simpa using hne

/-- Structure of a string accepted by the email regular expression. -/
lemma validEmail_shape {cs : List Char} (h : isValidEmailL cs = true) :
    ∃ l rest, cs = l ++ '@' :: rest ∧ l.isEmpty = false ∧
      l.all isAtomChar = true ∧ rest.all isAtomChar = true ∧
      (rest.dropLast.drop 1).contains '.' = true ∧ afterFirstAt cs = rest := by
  unfold isValidEmailL at h
  cases hd : cs.dropWhile (fun c => c != '@') with
  | nil => rw [hd] at h; simp at h
  | cons a rest =>
    rw [hd] at h
    simp only [Bool.and_eq_true, beq_iff_eq] at h
    obtain ⟨⟨⟨⟨ha, hne⟩, hl⟩, hr⟩, hdot⟩ := h
    subst ha
    refine ⟨cs.takeWhile (fun c => c != '@'), rest, ?_, ?_, hl, hr, hdot, ?_⟩
    · conv_lhs => rw [← List.takeWhile_append_dropWhile (fun c => c != '@') cs]
      rw [hd]
    · simpa using hne
    · unfold afterFirstAt
      rw [hd]
      rfl

lemma validEmail_mem_at {cs : List Char} (h : isValidEmailL cs = true) : '@' ∈ cs := by
  obtain ⟨l, rest, hcs, -⟩ := validEmail_shape h
  rw [hcs]
  exact List.mem_append_right _ (List.mem_cons_self _ _)

lemma validEmail_dot_afterAt {cs : List Char} (h : isValidEmailL cs = true) :
    '.' ∈ afterFirstAt cs := by
  obtain ⟨l, rest, hcs, -, -, -, hdot, hafter⟩ := validEmail_shape h
  rw [hafter]
  have hmem : '.' ∈ rest.dropLast.drop 1 := by
    simpa [List.contains_iff_exists_mem_beq] using hdot
  exact ((List.drop_sublist 1 rest.dropLast).trans (List.dropLast_sublist rest)).mem hmem

lemma validEmail_no_ws {cs : List Char} (h : isValidEmailL cs = true) :
    ∀ c ∈ cs, isWs c = false := by
  obtain ⟨l, rest, hcs, -, hl, hr, -, -⟩ := validEmail_shape h
  intro c hc
  rw [hcs] at hc
  rcases List.mem_append.1 hc with hcl | hcr
  · exact isAtomChar_not_ws (List.all_eq_true.1 hl c hcl)
  · rcases List.mem_cons.1 hcr with rfl | hcr
    · decide
    · exact isAtomChar_not_ws (List.all_eq_true.1 hr c hcr)

lemma mem_of_mem_jsTrimL {c : Char} {cs : List Char} (h : c ∈ jsTrimL cs) : c ∈ cs := by
  unfold jsTrimL at h
  rw [List.mem_reverse] at h
  have h1 := (List.dropWhile_sublist isWs).mem h
  rw [List.mem_reverse] at h1
  exact (List.dropWhile_sublist isWs).mem h1

lemma afterFirstAt_jsTrimL {cs : List Char} (h : '.' ∈ afterFirstAt (jsTrimL cs)) :
    '.' ∈ afterFirstAt cs := by
  -- step 1: stripping the leading whitespace does not change `afterFirstAt`
  have hlead : afterFirstAt cs = afterFirstAt (cs.dropWhile isWs) := by
    unfold afterFirstAt
    conv_lhs => rw [← List.takeWhile_append_dropWhile isWs cs]
    rw [List.dropWhile_append_of_pos]
    intro a ha
    exact ws_ne_at (List.mem_takeWhile_imp ha)
  -- step 2: the leading-stripped list splits as the trimmed list ++ whitespace
  set ds := cs.dropWhile isWs with hds
  have hsplit : ds = jsTrimL cs ++ (ds.reverse.takeWhile isWs).reverse := by
    unfold jsTrimL
    rw [← hds, ← List.reverse_append, List.takeWhile_append_dropWhile, List.reverse_reverse]
  -- step 3: a dot after the first at of the trimmed list survives appending
  rw [hlead, hsplit]
  unfold afterFirstAt at h ⊢
  rw [List.dropWhile_append]
  cases hq : (jsTrimL cs).dropWhile (fun c => c != '@') with
  | nil => rw [hq] at h; simp at h
  | cons a d =>
    rw [hq] at h
    simp only [List.isEmpty_cons, Bool.false_eq_true, if_false, List.cons_append,
      List.drop_succ_cons, List.drop_zero] at h ⊢
    exact List.mem_append_left _ h

lemma jsTrimL_eq_self {cs : List Char} (h : ∀ c ∈ cs, isWs c = false) :
    jsTrimL cs = cs := by
  have base : ∀ l : List Char, (∀ c ∈ l, isWs c = false) → l.dropWhile isWs = l := by
    intro l hl
    cases l with
    | nil => rfl
    | cons a t =>
      rw [List.dropWhile_cons_of_neg]
      simp [hl a (List.mem_cons_self a t)]
  unfold jsTrimL
  rw [base cs h, base _ (by intro c hc; exact h c (List.mem_reverse.1 hc)),
    List.reverse_reverse]

lemma isValidEmailL_nil : isValidEmailL [] = false := rfl

/-! ### Helper lemmas about the client operations -/

lemma jsTrim_ne_empty {email : String} (hv : isValidEmail (jsTrim email) = true) :
    ¬ jsTrim email = "" := by
  intro h
  rw [h] at hv
  exact absurd hv (by decide)

lemma getUsersByEmail_valid_eq (lookup : UserLookup) (email : String)
    (hv : isValidEmail (jsTrim email) = true) :
    getUsersByEmail lookup email =
      match lookup (jsToLower (jsTrim email)) with
      | .ok d => (.ok d, [.usersByEmail (jsToLower (jsTrim email))])
      | .error e =>
          (.error (handleError e), [.usersByEmail (jsToLower (jsTrim email))]) := by
  unfold getUsersByEmail
  simp [hv, jsTrim_ne_empty hv]

lemma mutationFree_getUsersByEmail (lookup : UserLookup) (email : String) :
    mutationFree (getUsersByEmail lookup email).2 = true := by
  simp only [getUsersByEmail]
  split
  · rfl
  · split <;> rfl

lemma getUserByEmail_trace (lookup : UserLookup) (email : String) :
    (getUserByEmail lookup email).2 = (getUsersByEmail lookup email).2 := by
  unfold getUserByEmail
  rcases h : getUsersByEmail lookup email with ⟨r, t⟩
  rcases r with e | u?
  · rfl
  · rcases u? with _ | users
    · rfl
    · by_cases hl : users.length > 1 <;> simp [hl]

lemma findUser_trace (lookup : UserLookup) (email : String) :
    (findUser lookup email).2 = (getUserByEmail lookup email).2 := by
  unfold findUser
  rcases h : getUserByEmail lookup email with ⟨r, t⟩
  rcases r with e | u? <;> rfl

lemma mutationFree_findUser (lookup : UserLookup) (email : String) :
    mutationFree (findUser lookup email).2 = true := by
  rw [findUser_trace, getUserByEmail_trace]
  exact mutationFree_getUsersByEmail lookup email

lemma mutationFree_append (a b : List RemoteCall) :
    mutationFree (a ++ b) = (mutationFree a && mutationFree b) :=
  List.all_append

/-- Success path of the role-attachment loop: one call per member with a
truthy role list, in input order. -/
lemma attachRolesLoop_ok (oracle : AssignOracle) (org : String) :
    ∀ ms : List MemberInput,
      (∀ m ∈ ms, truthyRoles m.roles = true →
        oracle.addMemberRoles org m.user_id (rolesOf m) = none) →
      attachRolesLoop oracle org ms =
        (.ok (), (ms.filter (fun m => truthyRoles m.roles)).map
          (fun m => .addMemberRoles org m.user_id (rolesOf m)))
  | [], _ => rfl
  | m :: rest, h => by
    have hrest := attachRolesLoop_ok oracle org rest
      (fun x hx => h x (List.mem_cons_of_mem m hx))
    unfold attachRolesLoop
    cases hm : truthyRoles m.roles with
    | false => simp [hrest, List.filter_cons, hm]
    | true => simp [h m (List.mem_cons_self m rest) hm, hrest, List.filter_cons, hm]

/-- Failure path of the role-attachment loop: the loop stops at the first
member whose role-attachment call is rejected; later members get no call. -/
lemma attachRolesLoop_fail (oracle : AssignOracle) (org : String)
    (m : MemberInput) (e : RawError) :
    ∀ pre post : List MemberInput,
      (∀ x ∈ pre, truthyRoles x.roles = true →
        oracle.addMemberRoles org x.user_id (rolesOf x) = none) →
      truthyRoles m.roles = true →
      oracle.addMemberRoles org m.user_id (rolesOf m) = some e →
      attachRolesLoop oracle org (pre ++ m :: post) =
        (.error e, (pre.filter (fun x => truthyRoles x.roles)).map
            (fun x => RemoteCall.addMemberRoles org x.user_id (rolesOf x)) ++
          [.addMemberRoles org m.user_id (rolesOf m)])
  | [], post, _, hm, he => by
    simp only [List.nil_append, List.filter_nil, List.map_nil]
    unfold attachRolesLoop
    rw [if_pos hm, he]
  | x :: pre, post, hpre, hm, he => by
    have hrest := attachRolesLoop_fail oracle org m e pre post
      (fun y hy => hpre y (List.mem_cons_of_mem x hy)) hm he
    simp only [List.cons_append]
    unfold attachRolesLoop
    cases hx : truthyRoles x.roles with
    | false => simp [hrest, List.filter_cons, hx]
    | true =>
      simp [hpre x (List.mem_cons_self x pre) hx, hrest, List.filter_cons, hx]

lemma countP_add_countP_not {α : Type} (p : α → Bool) (l : List α) :
    l.countP p + l.countP (fun a => !p a) = l.length := by
  induction l with
  | nil => rfl
  | cons a t ih =>
    by_cases h : p a = true <;>
      simp [List.countP_cons, h, ← ih] <;> omega

/-- Full characterization of the `executeAssignments` loop: counts are the
number of succeeding / failing organizations, and the trace is the ordered
concatenation of each organization's `addMembersToOrganization` trace. -/
lemma execLoop_spec (oracle : AssignOracle) (userId : String)
    (roleIds : List String) :
    ∀ orgs : List Organization,
      execLoop oracle userId roleIds orgs =
        ((orgs.countP (fun o =>
            isOkResult (addMembersToOrganization oracle o.id
              [⟨userId, some roleIds⟩]).1),
          orgs.countP (fun o =>
            !isOkResult (addMembersToOrganization oracle o.id
              [⟨userId, some roleIds⟩]).1)),
         (orgs.map (fun o => (addMembersToOrganization oracle o.id
            [⟨userId, some roleIds⟩]).2)).flatten)
  | [] => rfl
  | o :: os => by
    have ih := execLoop_spec oracle userId roleIds os
    unfold execLoop
    rw [ih]
    rcases h : (addMembersToOrganization oracle o.id [⟨userId, some roleIds⟩]).1
      with e | v
    · simp [List.countP_cons, isOkResult, h]
    · simp [List.countP_cons, isOkResult, h]

/-! ### Claim theorems -/

/-- C1: for every email lookup on a valid email, `getUserByEmail` returns
`null` when `getUsersByEmail` yields zero matches, the single record for
exactly one match, and throws the ambiguity error for every list of two or
more matches — it never picks the first of multiple matches. -/
theorem getUserByEmail_zero_one_many (lookup : UserLookup) (email : String)
    (users : List Auth0User)
    (hv : isValidEmail (jsTrim email) = true)
    (hl : lookup (jsToLower (jsTrim email)) = .ok (some users)) :
    (users = [] → getUserByEmail lookup email =
      (.ok none, [.usersByEmail (jsToLower (jsTrim email))]))
    ∧ (∀ u, users = [u] → getUserByEmail lookup email =
      (.ok (some u), [.usersByEmail (jsToLower (jsTrim email))]))
    ∧ (2 ≤ users.length → getUserByEmail lookup email =
      (.error ambiguousMsg, [.usersByEmail (jsToLower (jsTrim email))])) := by
  have hq := getUsersByEmail_valid_eq lookup email hv
  rw [hl] at hq
  refine ⟨?_, ?_, ?_⟩
  · rintro rfl
    unfold getUserByEmail
    rw [hq]
    rfl
  · rintro u rfl
    unfold getUserByEmail
    rw [hq]
    rfl
  · intro h2
    unfold getUserByEmail
    rw [hq]
    have hgt : users.length > 1 := h2
    simp [hgt]

/-- Witness for C1 at zero, one and two matches. -/
theorem getUserByEmail_zero_one_many_witness :
    getUserByEmail lookupZero "a@b.c" = (.ok none, [.usersByEmail "a@b.c"])
    ∧ getUserByEmail lookupOne "a@b.c" =
      (.ok (some sampleUser), [.usersByEmail "a@b.c"])
    ∧ getUserByEmail lookupTwo "a@b.c" =
      (.error ambiguousMsg, [.usersByEmail "a@b.c"]) := by
  refine ⟨?_, ?_, ?_⟩
  · rw [(getUserByEmail_zero_one_many lookupZero "a@b.c" [] (by decide) rfl).1 rfl]
    rfl
  · rw [(getUserByEmail_zero_one_many lookupOne "a@b.c" [sampleUser] (by decide)
      rfl).2.1 sampleUser rfl]
    rfl
  · rw [(getUserByEmail_zero_one_many lookupTwo "a@b.c" [sampleUser, sampleUser2]
      (by decide) rfl).2.2 (by decide)]
    rfl

/-- C9: a `null`/`undefined` user list from the remote lookup makes
`getUserByEmail` throw the same ambiguity error as multiple matches, instead
of returning `null`. -/
theorem getUserByEmail_null_list (lookup : UserLookup) (email : String)
    (hv : isValidEmail (jsTrim email) = true)
    (hl : lookup (jsToLower (jsTrim email)) = .ok none) :
    getUserByEmail lookup email =
      (.error ambiguousMsg, [.usersByEmail (jsToLower (jsTrim email))]) := by
  have hq := getUsersByEmail_valid_eq lookup email hv
  rw [hl] at hq
  unfold getUserByEmail
  rw [hq]

/-- Witness for C9. -/
theorem getUserByEmail_null_list_witness :
    getUserByEmail lookupNull "a@b.c" =
      (.error ambiguousMsg, [.usersByEmail "a@b.c"]) := by
  rw [getUserByEmail_null_list lookupNull "a@b.c" (by decide) rfl]
  rfl

/-- C6: for every valid email, the argument of the remote lookup call is the
input trimmed and lowercased, applied exactly once. -/
theorem getUsersByEmail_sanitizes (lookup : UserLookup) (email : String)
    (hv : isValidEmail (jsTrim email) = true) :
    (getUsersByEmail lookup email).2 =
      [.usersByEmail (jsToLower (jsTrim email))] := by
  rw [getUsersByEmail_valid_eq lookup email hv]
  cases hl : lookup (jsToLower (jsTrim email)) <;> rfl

/-- Witness for C6: input `"  Foo@Bar.COM  "` yields lookup argument
`"foo@bar.com"`. -/
theorem getUsersByEmail_sanitizes_witness :
    (getUsersByEmail lookupOne "  Foo@Bar.COM  ").2 =
      [.usersByEmail "foo@bar.com"] := by
  rw [getUsersByEmail_sanitizes lookupOne "  Foo@Bar.COM  " (by decide)]
  rfl

/-- Counterexample to C4 as stated: the error object
`{statusCode: 0, message: "boom"}` carries a numeric status code, yet
`handleError` renders it with the message-only format, because the code
tests JS truthiness of `error.statusCode` and `0` is falsy.  (The spec's
"Remote API" prefix is its vendor-neutral rendering of the code's literal
"Auth0 API".) -/
theorem handleError_statusCode_zero_counterexample :
    handleError ⟨some 0, some "boom", "X"⟩ = "Auth0 API: boom"
    ∧ ¬ handleError ⟨some 0, some "boom", "X"⟩ =
      "Auth0 API Error (0): boom" := by
  exact ⟨rfl, by decide⟩

/-- C4 as amended: with a *truthy* (nonzero) numeric status code the message
is "Auth0 API Error ({code}): {msg-or-default}" (default when the message is
absent or empty); with a falsy status code and a truthy (nonempty) message
it is "Auth0 API: {msg}"; with neither it is "Auth0 API: " followed by the
stringified value. -/
theorem handleError_format (e : RawError) :
    (∀ c m, e.statusCode = some c → c ≠ 0 → e.message = some m → m ≠ "" →
      handleError e = "Auth0 API Error (" ++ toString c ++ "): " ++ m)
    ∧ (∀ c, e.statusCode = some c → c ≠ 0 →
      (e.message = none ∨ e.message = some "") →
      handleError e =
        "Auth0 API Error (" ++ toString c ++ "): " ++ "Auth0 API Error")
    ∧ (truthyInt e.statusCode = false → ∀ m, e.message = some m → m ≠ "" →
      handleError e = "Auth0 API: " ++ m)
    ∧ (truthyInt e.statusCode = false → truthyStr e.message = false →
      handleError e = "Auth0 API: " ++ e.asString) := by
  obtain ⟨sc, msg, str⟩ := e
  refine ⟨?_, ?_, ?_, ?_⟩
  · rintro c m rfl hc rfl hm
    simp [handleError, truthyInt, messageOrDefault, hc, hm]
  · rintro c rfl hc (rfl | rfl) <;>
      simp [handleError, truthyInt, messageOrDefault, hc]
  · rintro ht m rfl hm
    simp only at ht
    simp [handleError, truthyStr, ht, hm]
  · intro ht hm
    simp only at ht hm
    simp [handleError, ht, hm]

/-- Witness for the amended C4 at the spec's three examples. -/
theorem handleError_format_witness :
    handleError ⟨some 404, some "User not found", "X"⟩ =
      "Auth0 API Error (404): User not found"
    ∧ handleError ⟨none, some "timeout", "X"⟩ = "Auth0 API: timeout"
    ∧ handleError ⟨none, none, "boom"⟩ = "Auth0 API: boom" := by
  refine ⟨?_, ?_, ?_⟩
  · rw [(handleError_format ⟨some 404, some "User not found", "X"⟩).1
      404 "User not found" rfl (by decide) rfl (by decide)]
    rfl
  · rw [(handleError_format ⟨none, some "timeout", "X"⟩).2.2.1
      rfl "timeout" rfl (by decide)]
    rfl
  · rw [(handleError_format ⟨none, none, "boom"⟩).2.2.2 rfl rfl]
    rfl

/-- C2: on a healthy oracle, `addMembersToOrganization` over N members
issues exactly one batched membership call covering all N members, followed
by exactly one role-attachment call per member with a truthy (non-empty,
present) role list — in input member order — and none for members with an
empty or absent role list. -/
theorem addMembersToOrganization_call_pattern (oracle : AssignOracle)
    (org : String) (members : List MemberInput)
    (hb : oracle.addMembers org (members.map (fun m => m.user_id)) = none)
    (hr : ∀ m ∈ members, truthyRoles m.roles = true →
      oracle.addMemberRoles org m.user_id (rolesOf m) = none) :
    addMembersToOrganization oracle org members =
      (.ok (), .addMembers org (members.map (fun m => m.user_id)) ::
        (members.filter (fun m => truthyRoles m.roles)).map
          (fun m => .addMemberRoles org m.user_id (rolesOf m))) := by
  simp only [addMembersToOrganization]
  rw [hb, attachRolesLoop_ok oracle org members hr]

/-- Witness for C2: four members — roles present, empty, absent, present. -/
theorem addMembersToOrganization_call_pattern_witness :
    addMembersToOrganization okOracle "org1"
      [⟨"u1", some ["r1", "r2"]⟩, ⟨"u2", some []⟩, ⟨"u3", none⟩,
        ⟨"u4", some ["r1"]⟩] =
      (.ok (), [.addMembers "org1" ["u1", "u2", "u3", "u4"],
        .addMemberRoles "org1" "u1" ["r1", "r2"],
        .addMemberRoles "org1" "u4" ["r1"]]) := by
  rw [addMembersToOrganization_call_pattern okOracle "org1"
    [⟨"u1", some ["r1", "r2"]⟩, ⟨"u2", some []⟩, ⟨"u3", none⟩,
      ⟨"u4", some ["r1"]⟩] rfl (fun m _ _ => rfl)]
  rfl

/-- C3: if the batched membership call fails, zero role-attachment calls are
made and the failure propagates as the `handleError`-normalized error; if a
role-attachment call fails after the membership batch succeeded, the
operation fails at that point — members after the failing one get no call,
and the already-issued membership batch is not undone (the trace still
begins with it and contains no compensating call). -/
theorem addMembersToOrganization_failure_behavior (oracle : AssignOracle)
    (org : String) (members : List MemberInput) :
    (∀ e, oracle.addMembers org (members.map (fun m => m.user_id)) = some e →
      addMembersToOrganization oracle org members =
        (.error (handleError e),
         [.addMembers org (members.map (fun m => m.user_id))]))
    ∧ (∀ pre m post e, members = pre ++ m :: post →
        oracle.addMembers org (members.map (fun x => x.user_id)) = none →
        (∀ x ∈ pre, truthyRoles x.roles = true →
          oracle.addMemberRoles org x.user_id (rolesOf x) = none) →
        truthyRoles m.roles = true →
        oracle.addMemberRoles org m.user_id (rolesOf m) = some e →
        addMembersToOrganization oracle org members =
          (.error (handleError e),
           .addMembers org (members.map (fun x => x.user_id)) ::
             ((pre.filter (fun x => truthyRoles x.roles)).map
               (fun x => RemoteCall.addMemberRoles org x.user_id (rolesOf x)) ++
              [.addMemberRoles org m.user_id (rolesOf m)]))) := by
  constructor
  · intro e he
    simp only [addMembersToOrganization]
    rw [he]
  · rintro pre m post e rfl hb hpre hm hmfail
    simp only [addMembersToOrganization]
    rw [hb, attachRolesLoop_fail oracle org m e pre post hpre hm hmfail]

/-- Witness for C3: a rejected membership batch yields exactly the batch
call and the normalized 403 message; a rejected role attachment after a
successful batch stops before the second member's role call. -/
theorem addMembersToOrganization_failure_behavior_witness :
    addMembersToOrganization bFailsOracle "B" [⟨"u1", some ["r1"]⟩] =
      (.error "Auth0 API Error (403): denied", [.addMembers "B" ["u1"]])
    ∧ addMembersToOrganization rolesFailOracle "org1"
        [⟨"u1", some ["r1"]⟩, ⟨"u2", some ["r1"]⟩] =
      (.error "Auth0 API Error (401): insufficient scope",
       [.addMembers "org1" ["u1", "u2"], .addMemberRoles "org1" "u1" ["r1"]]) := by
  constructor
  · rw [(addMembersToOrganization_failure_behavior bFailsOracle "B"
      [⟨"u1", some ["r1"]⟩]).1 ⟨some 403, some "denied", "e"⟩ rfl]
    rfl
  · rw [(addMembersToOrganization_failure_behavior rolesFailOracle "org1"
      [⟨"u1", some ["r1"]⟩, ⟨"u2", some ["r1"]⟩]).2 []
      ⟨"u1", some ["r1"]⟩ [⟨"u2", some ["r1"]⟩]
      ⟨some 401, some "insufficient scope", "e"⟩ rfl rfl
      (fun x hx => absurd hx (List.not_mem_nil x)) rfl rfl]
    rfl

/-- C5: `executeAssignments` attempts every selected organization in order
(the trace is the ordered concatenation of each organization's assign
trace), counts every attempted organization exactly once as a success or a
failure, and one organization's failure does not abort the rest; in the
concrete [A, B, C] scenario with B failing the tally is 2 successes and 1
failure. -/
theorem executeAssignments_tally :
    (∀ (oracle : AssignOracle) (user : Auth0User) (orgs : List Organization)
      (roles : List Role),
      executeAssignments oracle user orgs roles =
        ((orgs.countP (fun o => isOkResult (addMembersToOrganization oracle
            o.id [⟨user.user_id, some (roles.map (fun r => r.id))⟩]).1),
          orgs.countP (fun o => !isOkResult (addMembersToOrganization oracle
            o.id [⟨user.user_id, some (roles.map (fun r => r.id))⟩]).1)),
         (orgs.map (fun o => (addMembersToOrganization oracle o.id
            [⟨user.user_id, some (roles.map (fun r => r.id))⟩]).2)).flatten)
      ∧ (executeAssignments oracle user orgs roles).1.1 +
          (executeAssignments oracle user orgs roles).1.2 = orgs.length)
    ∧ (executeAssignments bFailsOracle sampleUser [orgA, orgB, orgC]
        [roleR]).1 = (2, 1) := by
  constructor
  · intro oracle user orgs roles
    have hspec := execLoop_spec oracle user.user_id
      (roles.map (fun r => r.id)) orgs
    constructor
    · exact hspec
    · show (execLoop oracle user.user_id (roles.map (fun r => r.id)) orgs).1.1 +
        (execLoop oracle user.user_id (roles.map (fun r => r.id)) orgs).1.2 =
        orgs.length
      rw [hspec]
      exact countP_add_countP_not _ orgs
  · rfl

/-- C7: for every syntactically invalid email — empty, missing `'@'`, or
missing a `'.'` after the first `'@'` (no dot in the domain) — both
`getUsersByEmail` and the workflow entry `run` fail with the invalid-input
error and issue zero remote calls. -/
theorem invalidEmail_no_remote_calls (email : String)
    (hbad : email = "" ∨ '@' ∉ email.toList ∨ '.' ∉ afterFirstAt email.toList) :
    (∀ lookup : UserLookup,
      getUsersByEmail lookup email = (.error invalidEmailMsg, []))
    ∧ (∀ s : Session, run s email = (1, [])) := by
  have hraw : isValidEmail email = false := by
    cases h : isValidEmail email with
    | false => rfl
    | true =>
      exfalso
      rcases hbad with rfl | hat | hdot
      · exact absurd h (by decide)
      · exact hat (validEmail_mem_at h)
      · exact hdot (validEmail_dot_afterAt h)
  have htrim : jsTrim email = "" ∨ isValidEmail (jsTrim email) = false := by
    rcases hbad with rfl | hat | hdot
    · exact Or.inl rfl
    · refine Or.inr ?_
      cases h : isValidEmail (jsTrim email) with
      | false => rfl
      | true =>
        exact absurd (mem_of_mem_jsTrimL (validEmail_mem_at h)) hat
    · refine Or.inr ?_
      cases h : isValidEmail (jsTrim email) with
      | false => rfl
      | true =>
        exact absurd (afterFirstAt_jsTrimL (validEmail_dot_afterAt h)) hdot
  constructor
  · intro lookup
    simp only [getUsersByEmail]
    rcases htrim with h0 | hf
    · simp [h0]
    · simp [hf]
  · intro s
    simp [run, hraw]

/-- Witness for C7 at a missing `'@'`, a domain without a dot, and the empty
string. -/
theorem invalidEmail_no_remote_calls_witness :
    getUsersByEmail lookupOne "foobar.com" = (.error invalidEmailMsg, [])
    ∧ run healthySession "foo@barcom" = (1, [])
    ∧ getUsersByEmail lookupOne "" = (.error invalidEmailMsg, []) :=
  ⟨(invalidEmail_no_remote_calls "foobar.com"
      (Or.inr (Or.inl (by decide)))).1 lookupOne,
   (invalidEmail_no_remote_calls "foo@barcom"
      (Or.inr (Or.inr (by decide)))).2 healthySession,
   (invalidEmail_no_remote_calls "" (Or.inl rfl)).1 lookupOne⟩

/-- C8: with initialization and user resolution succeeding, both no-op
endings — zero organizations selected, and confirmation declined — exit
with code 0 and a remote-call trace containing no mutation (`addMembers` or
`addMemberRoles`) call. -/
theorem run_noop_paths (s : Session) (email : String) (os : List Organization)
    (rs : List Role) (u : Auth0User)
    (hv : isValidEmail email = true)
    (ho : s.orgsResp = .ok os)
    (hr : s.rolesResp = .ok rs)
    (hu : (findUser s.lookup email).1 = some u) :
    (selectOrganizations os s.promptOrgs = [] →
      (run s email).1 = 0 ∧ mutationFree (run s email).2 = true)
    ∧ (s.confirm = false →
      (run s email).1 = 0 ∧ mutationFree (run s email).2 = true) := by
  obtain ⟨t3, hfu⟩ : ∃ t3, findUser s.lookup email = (some u, t3) :=
    ⟨(findUser s.lookup email).2, by rw [← hu]⟩
  have hmf3 := mutationFree_findUser s.lookup email
  rw [hfu] at hmf3
  simp [mutationFree] at hmf3
  constructor
  · intro hsel
    constructor
    · simp [run, hv, ho, hr, getOrganizations, getRoles, hfu, hsel]
    · simp [run, hv, ho, hr, getOrganizations, getRoles, hfu, hsel,
        mutationFree_append, mutationFree, hmf3]
      exact hmf3
  · intro hconf
    cases hsel : (selectOrganizations os s.promptOrgs).isEmpty with
    | true =>
      constructor
      · simp [run, hv, ho, hr, getOrganizations, getRoles, hfu, hsel]
      · simp [run, hv, ho, hr, getOrganizations, getRoles, hfu, hsel,
          mutationFree_append, mutationFree, hmf3]
        exact hmf3
    | false =>
      constructor
      · simp [run, hv, ho, hr, getOrganizations, getRoles, hfu, hsel, hconf]
      · simp [run, hv, ho, hr, getOrganizations, getRoles, hfu, hsel, hconf,
          mutationFree_append, mutationFree, hmf3]
        exact hmf3

/-- Witness for C8: a session selecting zero organizations and a session
declining confirmation, both exiting 0 with no mutation calls. -/
theorem run_noop_paths_witness :
    ((run zeroSelectSession "a@b.c").1 = 0
      ∧ mutationFree (run zeroSelectSession "a@b.c").2 = true)
    ∧ ((run declineSession "a@b.c").1 = 0
      ∧ mutationFree (run declineSession "a@b.c").2 = true) :=
  ⟨(run_noop_paths zeroSelectSession "a@b.c" [orgA, orgB] [roleR] sampleUser
      rfl rfl rfl rfl).1 rfl,
   (run_noop_paths declineSession "a@b.c" [orgA, orgB] [roleR] sampleUser
      rfl rfl rfl rfl).2 rfl⟩

/-- C10: the workflow entry validates the raw, untrimmed email, so an email
that is valid only after trimming is rejected — `run` exits 1 before any
remote call — even though the client-level lookup would have trimmed it
(hypothesis `hvt`). -/
theorem run_rejects_untrimmed_valid (s : Session) (email : String)
    (hvt : isValidEmail (jsTrim email) = true)
    (hne : jsTrim email ≠ email) :
    isValidEmail email = false ∧ run s email = (1, []) := by
  have hraw : isValidEmail email = false := by
    cases h : isValidEmail email with
    | false => rfl
    | true =>
      exfalso
      have hnws : ∀ c ∈ email.toList, isWs c = false :=
        validEmail_no_ws (show isValidEmailL email.toList = true from h)
      have heq : jsTrimL email.toList = email.toList := jsTrimL_eq_self hnws
      exact hne (congrArg String.mk heq)
  exact ⟨hraw, by simp [run, hraw]⟩

/-- Witness for C10: `" a@b.c"` is valid after trimming but the run rejects
it with exit code 1 and no remote calls. -/
theorem run_rejects_untrimmed_valid_witness :
    isValidEmail " a@b.c" = false ∧ run healthySession " a@b.c" = (1, []) :=
  run_rejects_untrimmed_valid healthySession " a@b.c" (by decide) (by decide)

end Auth0CLI
